import Mathlib

/-!
Verification of the CivicConnect civic-points / activity-verification core.

The embedding follows the JavaScript source:
* `userSchema.methods.updateCivicRank` (models/User.js) becomes the pure
  function `updateCivicRank : Int → Rank`.
* The civic controller functions `approveActivity`, `rejectActivity`,
  `endorseActivity`, `getUserCivicStats` (controllers/civicController.js)
  become state-passing functions over a store `St` holding the persisted
  `CivicActivity` and `User` documents as lists keyed by numeric ids
  (standing in for Mongo ObjectIds).
* HTTP error responses are mapped to the error taxonomy of the design
  document: 404 "Activity not found" / "User not found" → `notFound`,
  400 "Activity already processed" / "Can only endorse approved activities"
  → `invalidState`, 400 "Cannot endorse your own activity" → `forbidden`,
  400 "Already endorsed this activity" → `conflict`, and the catch-all 500
  → `serverError`.  Each constructor carries the source's message string.
* `parseInt(process.env.X) || d` is modelled by `pointsOrDefault env d`
  where `env : Option Int` is the `parseInt` result (`none` = variable
  absent or non-numeric, i.e. `NaN`); JavaScript treats `0` as falsy, so
  `some 0` also falls back to the default.
* `reason || 'Does not meet criteria'` and `message || ''` are modelled by
  `jsOr`, again with the empty string falsy.
-/

namespace CivicConnect

/-- The `civicRank` enum of `userSchema`. -/
inductive Rank
  | Citizen
  | Helper
  | Champion
  | Hero
  | Legend
deriving DecidableEq, Repr

/-- Numeric index of a rank tier, used to state monotonicity. -/
def rankIdx : Rank → Nat
  | .Citizen => 0
  | .Helper => 1
  | .Champion => 2
  | .Hero => 3
  | .Legend => 4

/-- `userSchema.methods.updateCivicRank` from models/User.js, as the pure
rank-from-points projection it computes before writing `this.civicRank`. -/
def updateCivicRank (points : Int) : Rank :=
  if points ≥ 10000 then .Legend
  else if points ≥ 5000 then .Hero
  else if points ≥ 2000 then .Champion
  else if points ≥ 500 then .Helper
  else .Citizen

/-- The `status` enum of `civicActivitySchema`. -/
inductive Status
  | pending
  | approved
  | rejected
deriving DecidableEq, Repr

/-- An entry of `civicActivitySchema.endorsements`. -/
structure Endorsement where
  user : Nat
  message : String
  pointsGiven : Int
  createdAt : Nat
deriving DecidableEq, Repr

/-- A `CivicActivity` document (the fields the civic workflow touches). -/
structure CivicActivity where
  id : Nat
  user : Nat
  title : String
  status : Status
  pointsAwarded : Int
  verifiedBy : Option Nat
  verifiedAt : Option Nat
  rejectionReason : Option String
  endorsements : List Endorsement
deriving DecidableEq, Repr

/-- A `User` document (the civic fields). -/
structure User where
  id : Nat
  civicPoints : Int
  civicRank : Rank
deriving DecidableEq, Repr

/-- The persisted store: the two collections the civic workflow reads and
writes. -/
structure St where
  activities : List CivicActivity
  users : List User
deriving DecidableEq, Repr

/-- Error taxonomy for the workflow outcomes (see module comment for the
mapping from the controller's HTTP responses). -/
inductive CivicError
  | notFound (msg : String)
  | invalidState (msg : String)
  | forbidden (msg : String)
  | conflict (msg : String)
  | serverError (msg : String)
deriving DecidableEq, Repr

/-- `CivicActivity.findById`. -/
def dbFindActivity (st : St) (id : Nat) : Option CivicActivity :=
  st.activities.find? (fun a => a.id == id)

/-- `activity.save()`: overwrite the document with this `_id`. -/
def dbSaveActivity (st : St) (a : CivicActivity) : St :=
  { st with activities := st.activities.map (fun b => if b.id == a.id then a else b) }

/-- `User.findById`. -/
def dbFindUser (st : St) (id : Nat) : Option User :=
  st.users.find? (fun u => u.id == id)

/-- `user.save()`: overwrite the document with this `_id`. -/
def dbSaveUser (st : St) (u : User) : St :=
  { st with users := st.users.map (fun v => if v.id == u.id then u else v) }

/-- `parseInt(env) || d`: `none` models `NaN` (absent or non-numeric), and
JavaScript's `||` also replaces a parsed `0` (falsy) by the default. -/
def pointsOrDefault (env : Option Int) (d : Int) : Int :=
  match env with
  | none => d
  | some n => if n = 0 then d else n

/-- JavaScript `s || d` for an optional string: `undefined` and `''` are
falsy. -/
def jsOr (s : Option String) (d : String) : String :=
  match s with
  | none => d
  | some v => if v = "" then d else v

/-- `approveActivity` from the civic controller.  Arguments: the activity id
(`req.params.id`), the verifier (`req.user._id`), the current time
(`Date.now()`), and the `parseInt(process.env.POINTS_PER_GOOD_DEED)` result.
Returns the workflow outcome together with the store after the call. -/
def approveActivity (activityId verifierId now : Nat) (envPoints : Option Int)
    (st : St) : Except CivicError Unit × St :=
  match dbFindActivity st activityId with
  | none => (.error (.notFound "Activity not found"), st)
  | some activity =>
    if activity.status ≠ Status.pending then
      (.error (.invalidState "Activity already processed"), st)
    else
      let pointsToAward := pointsOrDefault envPoints 100
      let activity' := { activity with
        status := Status.approved
        pointsAwarded := pointsToAward
        verifiedBy := some verifierId
        verifiedAt := some now }
      let st1 := dbSaveActivity st activity'
      match dbFindUser st1 activity.user with
      | none => (.error (.serverError "TypeError"), st1)
      | some user =>
        let user' := { user with civicPoints := user.civicPoints + pointsToAward }
        let user'' := { user' with civicRank := updateCivicRank user'.civicPoints }
        (.ok (), dbSaveUser st1 user'')

/-- `rejectActivity` from the civic controller.  `reason` is
`req.body.reason` (`none` when absent). -/
def rejectActivity (activityId verifierId : Nat) (reason : Option String)
    (now : Nat) (st : St) : Except CivicError Unit × St :=
  match dbFindActivity st activityId with
  | none => (.error (.notFound "Activity not found"), st)
  | some activity =>
    if activity.status ≠ Status.pending then
      (.error (.invalidState "Activity already processed"), st)
    else
      let activity' := { activity with
        status := Status.rejected
        rejectionReason := some (jsOr reason "Does not meet criteria")
        verifiedBy := some verifierId
        verifiedAt := some now }
      (.ok (), dbSaveActivity st activity')

/-- `endorseActivity` from the civic controller.  `message` is
`req.body.message`; `envPoints` is the
`parseInt(process.env.POINTS_PER_ENDORSEMENT)` result. -/
def endorseActivity (activityId endorserId : Nat) (message : Option String)
    (now : Nat) (envPoints : Option Int) (st : St) :
    Except CivicError Unit × St :=
  match dbFindActivity st activityId with
  | none => (.error (.notFound "Activity not found"), st)
  | some activity =>
    if activity.status ≠ Status.approved then
      (.error (.invalidState "Can only endorse approved activities"), st)
    else if activity.user == endorserId then
      (.error (.forbidden "Cannot endorse your own activity"), st)
    else if activity.endorsements.any (fun e => e.user == endorserId) then
      (.error (.conflict "Already endorsed this activity"), st)
    else
      let endorsementPoints := pointsOrDefault envPoints 10
      let activity' := { activity with
        endorsements := activity.endorsements ++
          [{ user := endorserId
             message := jsOr message ""
             pointsGiven := endorsementPoints
             createdAt := now }] }
      let st1 := dbSaveActivity st activity'
      match dbFindUser st1 activity.user with
      | none => (.error (.serverError "TypeError"), st1)
      | some user =>
        let user' := { user with civicPoints := user.civicPoints + endorsementPoints }
        let user'' := { user' with civicRank := updateCivicRank user'.civicPoints }
        (.ok (), dbSaveUser st1 user'')

/-- The response body of `getUserCivicStats`. -/
structure CivicStats where
  civicPoints : Int
  civicRank : Rank
  totalActivities : Nat
  pendingActivities : Nat
  totalEndorsements : Nat
deriving DecidableEq, Repr

/-- `CivicActivity.countDocuments(filter)`. -/
def countDocuments (st : St) (p : CivicActivity → Bool) : Nat :=
  (st.activities.filter p).length

/-- `getUserCivicStats` from the civic controller: the two
`countDocuments` calls and the aggregation pipeline
(`$match` user+approved, `$project` endorsement `$size`, `$group` `$sum`),
with `totalEndorsements[0]?.total || 0` for the empty-group case (the fold
over no sizes is `0`).  A pure read: the store is not written. -/
def getUserCivicStats (userId : Nat) (st : St) : Except CivicError CivicStats :=
  match dbFindUser st userId with
  | none => .error (.notFound "User not found")
  | some user =>
    let totalActivities := countDocuments st
      (fun a => a.user == userId && a.status == Status.approved)
    let pendingActivities := countDocuments st
      (fun a => a.user == userId && a.status == Status.pending)
    let endorsementSizes :=
      (st.activities.filter (fun a => a.user == userId && a.status == Status.approved)).map
        (fun a => a.endorsements.length)
    let totalEndorsements := endorsementSizes.foldl (· + ·) 0
    .ok { civicPoints := user.civicPoints
          civicRank := user.civicRank
          totalActivities := totalActivities
          pendingActivities := pendingActivities
          totalEndorsements := totalEndorsements }

/-! ### Shared lemmas about the store primitives -/

/-- After replacing the documents keyed like `u`, looking the key up finds
`u`, provided the key was present before. -/
theorem find_after_replace {α : Type} (key : α → Nat) (l : List α) (u v : α)
    (h : l.find? (fun w => key w == key u) = some v) :
    (l.map (fun w => if key w == key u then u else w)).find?
      (fun w => key w == key u) = some u := by
  induction l with
  | nil => simp [List.find?] at h
  | cons x xs ih =>
    cases hx : (key x == key u) with
    | true =>
      have hmap : (if (key x == key u) = true then u else x) = u := by simp [hx]
      simp only [List.map_cons, hmap]
      exact List.find?_cons_of_pos _ (by simp)
    | false =>
      have hmap : (if (key x == key u) = true then u else x) = x := by simp [hx]
      have hh : List.find? (fun w => key w == key u) xs = some v := by
        rwa [List.find?_cons_of_neg _ (by simp [hx])] at h
      simp only [List.map_cons, hmap]
      rw [List.find?_cons_of_neg _ (by simp [hx])]
      exact ih hh

theorem dbFindUser_dbSaveUser (st : St) (u v : User)
    (h : dbFindUser st u.id = some v) :
    dbFindUser (dbSaveUser st u) u.id = some u :=
  find_after_replace User.id st.users u v h

theorem dbFindActivity_dbSaveActivity (st : St) (a b : CivicActivity)
    (h : dbFindActivity st a.id = some b) :
    dbFindActivity (dbSaveActivity st a) a.id = some a :=
  find_after_replace CivicActivity.id st.activities a b h

theorem dbFindActivity_id (st : St) (i : Nat) (a : CivicActivity)
    (h : dbFindActivity st i = some a) : a.id = i := by
  have := List.find?_some h
  simpa using this

theorem dbFindUser_id (st : St) (i : Nat) (u : User)
    (h : dbFindUser st i = some u) : u.id = i := by
  have := List.find?_some h
  simpa using this

theorem dbFindUser_dbSaveActivity (st : St) (a : CivicActivity) (i : Nat) :
    dbFindUser (dbSaveActivity st a) i = dbFindUser st i := rfl

theorem dbFindActivity_dbSaveUser (st : St) (u : User) (i : Nat) :
    dbFindActivity (dbSaveUser st u) i = dbFindActivity st i := rfl

/-! ### The control-flow branches of the three workflow operations -/

/-- Success path of `approveActivity` on a pending activity whose owner
exists: the saved activity and the saved owner, spelled out. -/
theorem approveActivity_pending (aid vid now : Nat) (env : Option Int)
    (st : St) (a : CivicActivity) (owner : User)
    (ha : dbFindActivity st aid = some a) (hs : a.status = Status.pending)
    (hu : dbFindUser st a.user = some owner) :
    approveActivity aid vid now env st =
      (Except.ok (),
        dbSaveUser
          (dbSaveActivity st
            { a with
                status := Status.approved
                pointsAwarded := pointsOrDefault env 100
                verifiedBy := some vid
                verifiedAt := some now })
          { owner with
              civicPoints := owner.civicPoints + pointsOrDefault env 100
              civicRank :=
                updateCivicRank (owner.civicPoints + pointsOrDefault env 100) }) := by
  simp [approveActivity, ha, hs, dbFindUser_dbSaveActivity, hu]

/-- `approveActivity` on a non-pending activity: early return, store
untouched. -/
theorem approveActivity_not_pending (aid vid now : Nat) (env : Option Int)
    (st : St) (a : CivicActivity)
    (ha : dbFindActivity st aid = some a) (hs : a.status ≠ Status.pending) :
    approveActivity aid vid now env st =
      (Except.error (CivicError.invalidState "Activity already processed"), st) := by
  simp [approveActivity, ha, hs]

/-- Success path of `rejectActivity` on a pending activity. -/
theorem rejectActivity_pending (aid vid : Nat) (r : Option String) (now : Nat)
    (st : St) (a : CivicActivity)
    (ha : dbFindActivity st aid = some a) (hs : a.status = Status.pending) :
    rejectActivity aid vid r now st =
      (Except.ok (),
        dbSaveActivity st
          { a with
              status := Status.rejected
              rejectionReason := some (jsOr r "Does not meet criteria")
              verifiedBy := some vid
              verifiedAt := some now }) := by
  simp [rejectActivity, ha, hs]

/-- `rejectActivity` on a non-pending activity: early return, store
untouched. -/
theorem rejectActivity_not_pending (aid vid : Nat) (r : Option String) (now : Nat)
    (st : St) (a : CivicActivity)
    (ha : dbFindActivity st aid = some a) (hs : a.status ≠ Status.pending) :
    rejectActivity aid vid r now st =
      (Except.error (CivicError.invalidState "Activity already processed"), st) := by
  simp [rejectActivity, ha, hs]

/-- Success path of `endorseActivity`: approved activity, non-owner
endorser with no prior endorsement, owner exists. -/
theorem endorseActivity_ok (aid eid : Nat) (msg : Option String) (now : Nat)
    (env : Option Int) (st : St) (a : CivicActivity) (owner : User)
    (ha : dbFindActivity st aid = some a) (hs : a.status = Status.approved)
    (hown : a.user ≠ eid)
    (hprior : a.endorsements.any (fun e => e.user == eid) = false)
    (hu : dbFindUser st a.user = some owner) :
    endorseActivity aid eid msg now env st =
      (Except.ok (),
        dbSaveUser
          (dbSaveActivity st
            { a with
                endorsements := a.endorsements ++
                  [{ user := eid
                     message := jsOr msg ""
                     pointsGiven := pointsOrDefault env 10
                     createdAt := now }] })
          { owner with
              civicPoints := owner.civicPoints + pointsOrDefault env 10
              civicRank :=
                updateCivicRank (owner.civicPoints + pointsOrDefault env 10) }) := by
  simp [endorseActivity, ha, hs, hown, hprior, dbFindUser_dbSaveActivity, hu]

/-- `endorseActivity` on a non-approved activity: early return before the
self-endorsement check, store untouched. -/
theorem endorseActivity_not_approved (aid eid : Nat) (msg : Option String)
    (now : Nat) (env : Option Int) (st : St) (a : CivicActivity)
    (ha : dbFindActivity st aid = some a) (hs : a.status ≠ Status.approved) :
    endorseActivity aid eid msg now env st =
      (Except.error (CivicError.invalidState "Can only endorse approved activities"), st) := by
  simp [endorseActivity, ha, hs]

/-- `endorseActivity` by the owner on an approved activity: early return,
store untouched. -/
theorem endorseActivity_self (aid : Nat) (msg : Option String) (now : Nat)
    (env : Option Int) (st : St) (a : CivicActivity)
    (ha : dbFindActivity st aid = some a) (hs : a.status = Status.approved) :
    endorseActivity aid a.user msg now env st =
      (Except.error (CivicError.forbidden "Cannot endorse your own activity"), st) := by
  simp [endorseActivity, ha, hs]

/-- `endorseActivity` by a non-owner who already endorsed: early return,
store untouched. -/
theorem endorseActivity_dup (aid eid : Nat) (msg : Option String) (now : Nat)
    (env : Option Int) (st : St) (a : CivicActivity)
    (ha : dbFindActivity st aid = some a) (hs : a.status = Status.approved)
    (hown : a.user ≠ eid)
    (hdup : a.endorsements.any (fun e => e.user == eid) = true) :
    endorseActivity aid eid msg now env st =
      (Except.error (CivicError.conflict "Already endorsed this activity"), st) := by
  simp [endorseActivity, ha, hs, hown, hdup]

/-- Looking up `aid` after saving a document `a'` with the same id as the
one found at `aid` yields `a'`. -/
theorem dbFindActivity_after_save (st : St) (aid : Nat) (a a' : CivicActivity)
    (ha : dbFindActivity st aid = some a) (hid : a'.id = a.id) :
    dbFindActivity (dbSaveActivity st a') aid = some a' := by
  have h1 : a.id = aid := dbFindActivity_id st aid a ha
  have h2 : dbFindActivity st a'.id = some a := by rw [hid, h1]; exact ha
  have h3 := dbFindActivity_dbSaveActivity st a' a h2
  rwa [hid, h1] at h3

/-- Looking up `i` after saving a user `u'` with the same id as the one
found at `i` yields `u'`. -/
theorem dbFindUser_after_save (st : St) (i : Nat) (u u' : User)
    (hu : dbFindUser st i = some u) (hid : u'.id = u.id) :
    dbFindUser (dbSaveUser st u') i = some u' := by
  have h1 : u.id = i := dbFindUser_id st i u hu
  have h2 : dbFindUser st u'.id = some u := by rw [hid, h1]; exact hu
  have h3 := dbFindUser_dbSaveUser st u' u h2
  rwa [hid, h1] at h3

/-- `approveActivity` when the owner document is missing: the catch-all
500 path (`user.civicPoints` throws on `null`). -/
theorem approveActivity_no_user (aid vid now : Nat) (env : Option Int)
    (st : St) (a : CivicActivity)
    (ha : dbFindActivity st aid = some a) (hs : a.status = Status.pending)
    (hu : dbFindUser st a.user = none) :
    (approveActivity aid vid now env st).1 =
      Except.error (CivicError.serverError "TypeError") := by
  simp [approveActivity, ha, hs, dbFindUser_dbSaveActivity, hu]

/-- `endorseActivity` when the owner document is missing: the catch-all
500 path. -/
theorem endorseActivity_no_user (aid eid : Nat) (msg : Option String)
    (now : Nat) (env : Option Int) (st : St) (a : CivicActivity)
    (ha : dbFindActivity st aid = some a) (hs : a.status = Status.approved)
    (hown : a.user ≠ eid)
    (hprior : a.endorsements.any (fun e => e.user == eid) = false)
    (hu : dbFindUser st a.user = none) :
    (endorseActivity aid eid msg now env st).1 =
      Except.error (CivicError.serverError "TypeError") := by
  simp [endorseActivity, ha, hs, hown, hprior, dbFindUser_dbSaveActivity, hu]

/-! ### Concrete fixtures used by witnesses and counterexamples -/

/-- A pending activity owned by user 2. -/
def actP : CivicActivity :=
  { id := 1, user := 2, title := "Park cleanup", status := Status.pending,
    pointsAwarded := 0, verifiedBy := none, verifiedAt := none,
    rejectionReason := none, endorsements := [] }

/-- An approved activity owned by user 2, no endorsements yet. -/
def actA : CivicActivity :=
  { id := 1, user := 2, title := "Park cleanup", status := Status.approved,
    pointsAwarded := 100, verifiedBy := some 9, verifiedAt := some 4,
    rejectionReason := none, endorsements := [] }

/-- The owner before any award. -/
def owner0 : User := { id := 2, civicPoints := 0, civicRank := Rank.Citizen }

/-- The owner after one 100-point award. -/
def owner100 : User := { id := 2, civicPoints := 100, civicRank := Rank.Citizen }

/-- Store with one pending activity and its owner. -/
def stPending : St := { activities := [actP], users := [owner0] }

/-- Store with one approved activity and its owner. -/
def stApproved : St := { activities := [actA], users := [owner100] }

/-! ### C3: the rank table -/

/-- C3: `updateCivicRank` is total over the integers, monotone
non-decreasing, and matches the threshold table with inclusive lower
bounds: `[0,499] → Citizen`, `[500,1999] → Helper`,
`[2000,4999] → Champion`, `[5000,9999] → Hero`, `≥ 10000 → Legend`. -/
theorem C3_rank_table (p q : Int) :
    (0 ≤ p → p ≤ 499 → updateCivicRank p = Rank.Citizen) ∧
    (500 ≤ p → p ≤ 1999 → updateCivicRank p = Rank.Helper) ∧
    (2000 ≤ p → p ≤ 4999 → updateCivicRank p = Rank.Champion) ∧
    (5000 ≤ p → p ≤ 9999 → updateCivicRank p = Rank.Hero) ∧
    (10000 ≤ p → updateCivicRank p = Rank.Legend) ∧
    (p ≤ q → rankIdx (updateCivicRank p) ≤ rankIdx (updateCivicRank q)) := by
  unfold updateCivicRank
  refine ⟨?_, ?_, ?_, ?_, ?_, ?_⟩ <;> intros <;>
    split_ifs <;> first
      | rfl
      | omega
      | simp [rankIdx]

/-- Witness for C3 at the boundary values 499, 500, 1999, 2000, 4999,
5000, 9999, 10000, and monotonicity at a concrete pair. -/
theorem C3_rank_table_witness :
    updateCivicRank 499 = Rank.Citizen ∧
    updateCivicRank 500 = Rank.Helper ∧
    updateCivicRank 1999 = Rank.Helper ∧
    updateCivicRank 2000 = Rank.Champion ∧
    updateCivicRank 4999 = Rank.Champion ∧
    updateCivicRank 5000 = Rank.Hero ∧
    updateCivicRank 9999 = Rank.Hero ∧
    updateCivicRank 10000 = Rank.Legend ∧
    rankIdx (updateCivicRank 3) ≤ rankIdx (updateCivicRank 12345) :=
  ⟨(C3_rank_table 499 0).1 (by norm_num) (by norm_num),
   (C3_rank_table 500 0).2.1 (by norm_num) (by norm_num),
   (C3_rank_table 1999 0).2.1 (by norm_num) (by norm_num),
   (C3_rank_table 2000 0).2.2.1 (by norm_num) (by norm_num),
   (C3_rank_table 4999 0).2.2.1 (by norm_num) (by norm_num),
   (C3_rank_table 5000 0).2.2.2.1 (by norm_num) (by norm_num),
   (C3_rank_table 9999 0).2.2.2.1 (by norm_num) (by norm_num),
   (C3_rank_table 10000 0).2.2.2.2.1 (by norm_num),
   (C3_rank_table 3 12345).2.2.2.2.2 (by norm_num)⟩

/-! ### C4: decisions on already-processed activities -/

/-- C4: for every activity whose status is not pending, both
`approveActivity` and `rejectActivity` fail with the InvalidStateError
("Activity already processed") and return the store exactly as it was, so
the activity record and the owner's civicPoints and civicRank are
untouched. -/
theorem C4_already_processed (aid vid now : Nat) (env : Option Int)
    (r : Option String) (st : St) (a : CivicActivity)
    (ha : dbFindActivity st aid = some a) (hs : a.status ≠ Status.pending) :
    approveActivity aid vid now env st =
      (Except.error (CivicError.invalidState "Activity already processed"), st) ∧
    rejectActivity aid vid r now st =
      (Except.error (CivicError.invalidState "Activity already processed"), st) :=
  ⟨approveActivity_not_pending aid vid now env st a ha hs,
   rejectActivity_not_pending aid vid r now st a ha hs⟩

/-- Witness for C4 on a concrete approved activity. -/
theorem C4_already_processed_witness :
    approveActivity 1 9 5 none stApproved =
      (Except.error (CivicError.invalidState "Activity already processed"), stApproved) ∧
    rejectActivity 1 9 none 5 stApproved =
      (Except.error (CivicError.invalidState "Activity already processed"), stApproved) :=
  C4_already_processed 1 9 5 none none stApproved actA rfl (by decide)

/-! ### C6: self-endorsement -/

/-- C6 counterexample: on a concrete pending activity the owner's
endorsement attempt fails with the InvalidStateError "Can only endorse
approved activities" — the status check runs before the self-endorsement
check — not with the ForbiddenError the claim requires for every status. -/
theorem C6_counterexample :
    endorseActivity 1 2 none 5 none stPending =
      (Except.error (CivicError.invalidState "Can only endorse approved activities"),
        stPending) ∧
    CivicError.invalidState "Can only endorse approved activities" ≠
      CivicError.forbidden "Cannot endorse your own activity" :=
  ⟨rfl, by decide⟩

/-- C6 (amended): an endorsement attempt by the activity's own owner
always fails and leaves the store untouched; it fails with the
ForbiddenError ("Cannot endorse your own activity") exactly when the
activity is approved, and with the InvalidStateError ("Can only endorse
approved activities") for pending or rejected activities, because the
status check precedes the self-endorsement check. -/
theorem C6_self_endorsement (aid : Nat) (msg : Option String) (now : Nat)
    (env : Option Int) (st : St) (a : CivicActivity)
    (ha : dbFindActivity st aid = some a) :
    (a.status = Status.approved →
      endorseActivity aid a.user msg now env st =
        (Except.error (CivicError.forbidden "Cannot endorse your own activity"), st)) ∧
    (a.status ≠ Status.approved →
      endorseActivity aid a.user msg now env st =
        (Except.error (CivicError.invalidState "Can only endorse approved activities"), st)) :=
  ⟨fun hs => endorseActivity_self aid msg now env st a ha hs,
   fun hs => endorseActivity_not_approved aid a.user msg now env st a ha hs⟩

/-- Witness for C6 (amended) on a concrete approved activity: the owner
(user 2) gets the ForbiddenError. -/
theorem C6_self_endorsement_witness :
    endorseActivity 1 2 none 5 none stApproved =
      (Except.error (CivicError.forbidden "Cannot endorse your own activity"),
        stApproved) :=
  (C6_self_endorsement 1 none 5 none stApproved actA rfl).1 rfl

/-! ### C7: rejection -/

/-- C7: rejecting a pending activity succeeds and stores the activity
with status rejected, rejectionReason equal to the supplied reason (or
the default "Does not meet criteria" when none is supplied), verifiedBy
and verifiedAt set, while the users collection — hence the owner's
civicPoints and civicRank — is exactly unchanged. -/
theorem C7_reject_pending (aid vid : Nat) (r : Option String) (now : Nat)
    (st : St) (a : CivicActivity)
    (ha : dbFindActivity st aid = some a) (hs : a.status = Status.pending) :
    ∃ st', rejectActivity aid vid r now st = (Except.ok (), st') ∧
      dbFindActivity st' aid = some
        { a with
            status := Status.rejected
            rejectionReason := some (jsOr r "Does not meet criteria")
            verifiedBy := some vid
            verifiedAt := some now } ∧
      st'.users = st.users ∧
      (∀ s, r = some s → s ≠ "" → jsOr r "Does not meet criteria" = s) ∧
      (r = none → jsOr r "Does not meet criteria" = "Does not meet criteria") := by
  refine ⟨_, rejectActivity_pending aid vid r now st a ha hs, ?_, rfl, ?_, ?_⟩
  · exact dbFindActivity_after_save st aid a _ ha rfl
  · intro s hr hne
    subst hr
    simp [jsOr, hne]
  · intro hr
    subst hr
    rfl

/-- Witness for C7 on a concrete pending activity with no reason
supplied. -/
theorem C7_reject_pending_witness :
    ∃ st', rejectActivity 1 9 none 5 stPending = (Except.ok (), st') ∧
      dbFindActivity st' 1 = some
        { actP with
            status := Status.rejected
            rejectionReason := some (jsOr none "Does not meet criteria")
            verifiedBy := some 9
            verifiedAt := some 5 } ∧
      st'.users = stPending.users ∧
      (∀ s, (none : Option String) = some s → s ≠ "" →
        jsOr none "Does not meet criteria" = s) ∧
      ((none : Option String) = none →
        jsOr none "Does not meet criteria" = "Does not meet criteria") :=
  C7_reject_pending 1 9 none 5 stPending actP rfl rfl

/-! ### C1: rank is recomputed on every point change -/

/-- C1: both point-changing operations (activity approval and
endorsement) recompute and persist the owner's civicRank before
returning: after any successful call the stored owner record satisfies
`civicRank = updateCivicRank civicPoints`. -/
theorem C1_rank_recomputed (aid vid eid now : Nat) (msg : Option String)
    (env : Option Int) (st : St) (a : CivicActivity)
    (ha : dbFindActivity st aid = some a) :
    (∀ st', approveActivity aid vid now env st = (Except.ok (), st') →
      ∃ u, dbFindUser st' a.user = some u ∧
        u.civicRank = updateCivicRank u.civicPoints) ∧
    (∀ st', endorseActivity aid eid msg now env st = (Except.ok (), st') →
      ∃ u, dbFindUser st' a.user = some u ∧
        u.civicRank = updateCivicRank u.civicPoints) := by
  constructor
  · intro st' hrun
    by_cases hs : a.status = Status.pending
    · cases hu : dbFindUser st a.user with
      | none =>
        have h1 := approveActivity_no_user aid vid now env st a ha hs hu
        rw [hrun] at h1
        simp at h1
      | some owner =>
        rw [approveActivity_pending aid vid now env st a owner ha hs hu] at hrun
        have hst := congrArg Prod.snd hrun
        simp only at hst
        subst hst
        exact ⟨_, dbFindUser_after_save _ a.user owner _ hu rfl, rfl⟩
    · rw [approveActivity_not_pending aid vid now env st a ha hs] at hrun
      simp at hrun
  · intro st' hrun
    by_cases hs : a.status = Status.approved
    · by_cases hown : a.user = eid
      · rw [← hown] at hrun
        rw [endorseActivity_self aid msg now env st a ha hs] at hrun
        simp at hrun
      · cases hany : a.endorsements.any (fun e => e.user == eid) with
        | true =>
          rw [endorseActivity_dup aid eid msg now env st a ha hs hown hany] at hrun
          simp at hrun
        | false =>
          cases hu : dbFindUser st a.user with
          | none =>
            have h1 := endorseActivity_no_user aid eid msg now env st a ha hs hown hany hu
            rw [hrun] at h1
            simp at h1
          | some owner =>
            rw [endorseActivity_ok aid eid msg now env st a owner ha hs hown hany hu] at hrun
            have hst := congrArg Prod.snd hrun
            simp only at hst
            subst hst
            exact ⟨_, dbFindUser_after_save _ a.user owner _ hu rfl, rfl⟩
    · rw [endorseActivity_not_approved aid eid msg now env st a ha hs] at hrun
      simp at hrun

/-- Witness for C1: a concrete successful approval, whose final owner
record satisfies the rank invariant. -/
theorem C1_rank_recomputed_witness :
    ∃ u, dbFindUser (approveActivity 1 9 5 none stPending).2 actP.user = some u ∧
      u.civicRank = updateCivicRank u.civicPoints :=
  (C1_rank_recomputed 1 9 3 5 none none stPending actP rfl).1
    (approveActivity 1 9 5 none stPending).2 rfl

/-! ### C2: the awarded amount matches the configuration -/

/-- C2 counterexample: with the configured constant parsed as 0 (an
allowed value, `pointsPerActivity ≥ 0`), approving a concrete pending
activity succeeds but stores `pointsAwarded = 100` and adds 100 to the
owner's points — the configured 0 is silently replaced by the hardcoded
default, contradicting the claim for every constant ≥ 0. -/
theorem C2_counterexample :
    (approveActivity 1 9 5 (some 0) stPending).1 = Except.ok () ∧
    (dbFindActivity (approveActivity 1 9 5 (some 0) stPending).2 1).map
      CivicActivity.pointsAwarded = some 100 ∧
    (dbFindUser (approveActivity 1 9 5 (some 0) stPending).2 2).map
      User.civicPoints = some 100 ∧
    (100 : Int) ≠ 0 :=
  ⟨rfl, rfl, rfl, by decide⟩

/-- C2 (amended): for every configured constant `pointsPerActivity ≥ 1`,
approving a pending activity sets status to approved, pointsAwarded to
exactly the configured constant, verifiedBy to the verifier and
verifiedAt, and increments the owner's civicPoints by exactly the
configured constant.  (A configured 0 is silently replaced by the
hardcoded default 100.) -/
theorem C2_approve_awards (aid vid now : Nat) (n : Int) (st : St)
    (a : CivicActivity) (owner : User)
    (ha : dbFindActivity st aid = some a) (hs : a.status = Status.pending)
    (hu : dbFindUser st a.user = some owner) (hn : 1 ≤ n) :
    ∃ st', approveActivity aid vid now (some n) st = (Except.ok (), st') ∧
      dbFindActivity st' aid = some
        { a with
            status := Status.approved
            pointsAwarded := n
            verifiedBy := some vid
            verifiedAt := some now } ∧
      ∃ u, dbFindUser st' a.user = some u ∧
        u.civicPoints = owner.civicPoints + n := by
  have hn0 : n ≠ 0 := by omega
  have hpd : pointsOrDefault (some n) 100 = n := by
    simp [pointsOrDefault, hn0]
  have hrun := approveActivity_pending aid vid now (some n) st a owner ha hs hu
  rw [hpd] at hrun
  exact ⟨_, hrun, dbFindActivity_after_save st aid a _ ha rfl,
    ⟨_, dbFindUser_after_save _ a.user owner _ hu rfl, rfl⟩⟩

/-- Witness for C2 (amended) with the constant configured as 100. -/
theorem C2_approve_awards_witness :
    ∃ st', approveActivity 1 9 5 (some 100) stPending = (Except.ok (), st') ∧
      dbFindActivity st' 1 = some
        { actP with
            status := Status.approved
            pointsAwarded := 100
            verifiedBy := some 9
            verifiedAt := some 5 } ∧
      ∃ u, dbFindUser st' actP.user = some u ∧
        u.civicPoints = owner0.civicPoints + 100 :=
  C2_approve_awards 1 9 5 100 stPending actP owner0 rfl rfl rfl (by norm_num)

/-! ### C10: the falsy fallback for the configured constants -/

/-- C10: when the configured points constant is absent or non-numeric
(`parseInt` gives NaN, modelled `none`) or parses to 0, approval awards
exactly 100 points and endorsement awards exactly 10 — JavaScript's `||`
treats 0 as falsy — and no configuration can produce a zero-point
award. -/
theorem C10_falsy_fallback (aid vid eid now : Nat) (msg : Option String)
    (env : Option Int) (st : St) (a : CivicActivity) (owner : User)
    (henv : env = none ∨ env = some 0)
    (ha : dbFindActivity st aid = some a)
    (hu : dbFindUser st a.user = some owner) :
    (a.status = Status.pending →
      ∃ st', approveActivity aid vid now env st = (Except.ok (), st') ∧
        dbFindActivity st' aid = some
          { a with
              status := Status.approved
              pointsAwarded := 100
              verifiedBy := some vid
              verifiedAt := some now } ∧
        ∃ u, dbFindUser st' a.user = some u ∧
          u.civicPoints = owner.civicPoints + 100) ∧
    (a.status = Status.approved → a.user ≠ eid →
      a.endorsements.any (fun e => e.user == eid) = false →
      ∃ st', endorseActivity aid eid msg now env st = (Except.ok (), st') ∧
        ∃ u, dbFindUser st' a.user = some u ∧
          u.civicPoints = owner.civicPoints + 10) ∧
    (∀ e : Option Int, pointsOrDefault e 100 ≠ 0 ∧ pointsOrDefault e 10 ≠ 0) := by
  have h100 : pointsOrDefault env 100 = 100 := by
    rcases henv with h | h <;> subst h <;> rfl
  have h10 : pointsOrDefault env 10 = 10 := by
    rcases henv with h | h <;> subst h <;> rfl
  refine ⟨?_, ?_, ?_⟩
  · intro hs
    have hrun := approveActivity_pending aid vid now env st a owner ha hs hu
    rw [h100] at hrun
    exact ⟨_, hrun, dbFindActivity_after_save st aid a _ ha rfl,
      ⟨_, dbFindUser_after_save _ a.user owner _ hu rfl, rfl⟩⟩
  · intro hs hown hprior
    have hrun := endorseActivity_ok aid eid msg now env st a owner ha hs hown hprior hu
    rw [h10] at hrun
    exact ⟨_, hrun, ⟨_, dbFindUser_after_save _ a.user owner _ hu rfl, rfl⟩⟩
  · intro e
    cases e with
    | none => exact ⟨by decide, by decide⟩
    | some k =>
      by_cases hk : k = 0
      · subst hk
        exact ⟨by decide, by decide⟩
      · constructor <;> simp [pointsOrDefault, hk]

/-- Witness for C10: with the environment variable absent, a concrete
approval awards exactly 100 points. -/
theorem C10_falsy_fallback_witness :
    ∃ st', approveActivity 1 9 5 none stPending = (Except.ok (), st') ∧
      dbFindActivity st' 1 = some
        { actP with
            status := Status.approved
            pointsAwarded := 100
            verifiedBy := some 9
            verifiedAt := some 5 } ∧
      ∃ u, dbFindUser st' actP.user = some u ∧
        u.civicPoints = owner0.civicPoints + 100 :=
  (C10_falsy_fallback 1 9 3 5 none none stPending actP owner0
    (Or.inl rfl) rfl rfl).1 rfl

/-! ### C5: endorsements are one-per-user -/

/-- C5: on an approved activity, a first endorsement by a non-owner who
has not endorsed before succeeds, appends exactly one endorsement, and
awards the endorsement points to the owner exactly once; any subsequent
endorsement attempt by the same user on the same activity — with any
message, time, or configured constant — fails with the ConflictError
("Already endorsed this activity") and returns the store unchanged. -/
theorem C5_endorse_once (aid eid : Nat) (msg msg2 : Option String)
    (now now2 : Nat) (env env2 : Option Int) (st : St)
    (a : CivicActivity) (owner : User)
    (ha : dbFindActivity st aid = some a) (hs : a.status = Status.approved)
    (hown : a.user ≠ eid)
    (hprior : a.endorsements.any (fun e => e.user == eid) = false)
    (hu : dbFindUser st a.user = some owner) :
    ∃ st', endorseActivity aid eid msg now env st = (Except.ok (), st') ∧
      (∃ a', dbFindActivity st' aid = some a' ∧
        a'.endorsements = a.endorsements ++
          [{ user := eid
             message := jsOr msg ""
             pointsGiven := pointsOrDefault env 10
             createdAt := now }]) ∧
      (∃ u, dbFindUser st' a.user = some u ∧
        u.civicPoints = owner.civicPoints + pointsOrDefault env 10) ∧
      endorseActivity aid eid msg2 now2 env2 st' =
        (Except.error (CivicError.conflict "Already endorsed this activity"), st') := by
  have hrun := endorseActivity_ok aid eid msg now env st a owner ha hs hown hprior hu
  refine ⟨_, hrun, ⟨_, dbFindActivity_after_save st aid a _ ha rfl, rfl⟩,
    ⟨_, dbFindUser_after_save _ a.user owner _ hu rfl, rfl⟩, ?_⟩
  have ha2 := dbFindActivity_after_save st aid a
    { a with endorsements := a.endorsements ++
        [{ user := eid
           message := jsOr msg ""
           pointsGiven := pointsOrDefault env 10
           createdAt := now }] } ha rfl
  have hdup : (a.endorsements ++
      [({ user := eid
          message := jsOr msg ""
          pointsGiven := pointsOrDefault env 10
          createdAt := now } : Endorsement)]).any (fun e => e.user == eid) = true := by
    simp [List.any_append]
  exact endorseActivity_dup aid eid msg2 now2 env2 _ _ ha2 hs hown hdup

/-- Witness for C5: on the concrete approved activity, user 3 endorses
once successfully and the repeated attempt hits the ConflictError. -/
theorem C5_endorse_once_witness :
    ∃ st', endorseActivity 1 3 none 5 none stApproved = (Except.ok (), st') ∧
      (∃ a', dbFindActivity st' 1 = some a' ∧
        a'.endorsements = actA.endorsements ++
          [{ user := 3
             message := jsOr none ""
             pointsGiven := pointsOrDefault none 10
             createdAt := 5 }]) ∧
      (∃ u, dbFindUser st' actA.user = some u ∧
        u.civicPoints = owner100.civicPoints + pointsOrDefault none 10) ∧
      endorseActivity 1 3 none 6 none st' =
        (Except.error (CivicError.conflict "Already endorsed this activity"), st') :=
  C5_endorse_once 1 3 none none 5 6 none none stApproved actA owner100
    rfl rfl (by decide) rfl rfl

/-! ### C8: civic stats -/

/-- Folding `(+)` over naturals from `n` is `n` plus the sum. -/
theorem foldl_add_eq_sum (l : List Nat) : ∀ n : Nat, l.foldl (· + ·) n = n + l.sum := by
  induction l with
  | nil => intro n; simp
  | cons x xs ih =>
    intro n
    simp [List.foldl_cons, ih]
    omega

/-- C8: the civic stats read returns totalActivities = number of the
user's approved activities, pendingActivities = number of their pending
activities, and totalEndorsements = sum of endorsement-list lengths over
their approved activities only; the store is not written (the operation
is a pure function of it). -/
theorem C8_civic_stats (uid : Nat) (st : St) (u : User)
    (hu : dbFindUser st uid = some u) :
    ∃ s, getUserCivicStats uid st = Except.ok s ∧
      s.totalActivities =
        (st.activities.filter
          (fun a => a.user == uid && a.status == Status.approved)).length ∧
      s.pendingActivities =
        (st.activities.filter
          (fun a => a.user == uid && a.status == Status.pending)).length ∧
      s.totalEndorsements =
        ((st.activities.filter
          (fun a => a.user == uid && a.status == Status.approved)).map
            (fun a => a.endorsements.length)).sum ∧
      s.civicPoints = u.civicPoints ∧ s.civicRank = u.civicRank := by
  have hrun : getUserCivicStats uid st = Except.ok
      { civicPoints := u.civicPoints
        civicRank := u.civicRank
        totalActivities := countDocuments st
          (fun a => a.user == uid && a.status == Status.approved)
        pendingActivities := countDocuments st
          (fun a => a.user == uid && a.status == Status.pending)
        totalEndorsements :=
          ((st.activities.filter
            (fun a => a.user == uid && a.status == Status.approved)).map
              (fun a => a.endorsements.length)).foldl (· + ·) 0 } := by
    simp [getUserCivicStats, hu]
  refine ⟨_, hrun, rfl, rfl, ?_, rfl, rfl⟩
  exact (foldl_add_eq_sum _ 0).trans (Nat.zero_add _)

/-- The user of the C8 witness store. -/
def statsUser : User := { id := 7, civicPoints := 320, civicRank := Rank.Citizen }

/-- Witness store for C8: user 7 has three approved activities with 2, 0
and 5 endorsements, and one pending activity. -/
def stStats : St :=
  { activities :=
      [ { id := 11, user := 7, title := "A", status := Status.approved,
          pointsAwarded := 100, verifiedBy := some 9, verifiedAt := some 1,
          rejectionReason := none,
          endorsements :=
            [ { user := 3, message := "", pointsGiven := 10, createdAt := 1 },
              { user := 4, message := "", pointsGiven := 10, createdAt := 2 } ] },
        { id := 12, user := 7, title := "B", status := Status.approved,
          pointsAwarded := 100, verifiedBy := some 9, verifiedAt := some 2,
          rejectionReason := none, endorsements := [] },
        { id := 13, user := 7, title := "C", status := Status.approved,
          pointsAwarded := 100, verifiedBy := some 9, verifiedAt := some 3,
          rejectionReason := none,
          endorsements :=
            [ { user := 3, message := "", pointsGiven := 10, createdAt := 3 },
              { user := 4, message := "", pointsGiven := 10, createdAt := 4 },
              { user := 5, message := "", pointsGiven := 10, createdAt := 5 },
              { user := 6, message := "", pointsGiven := 10, createdAt := 6 },
              { user := 8, message := "", pointsGiven := 10, createdAt := 7 } ] },
        { id := 14, user := 7, title := "D", status := Status.pending,
          pointsAwarded := 0, verifiedBy := none, verifiedAt := none,
          rejectionReason := none, endorsements := [] } ],
    users := [statsUser] }

/-- Witness for C8 on the concrete store: the stats evaluate to
totalActivities = 3, pendingActivities = 1, totalEndorsements = 7. -/
theorem C8_civic_stats_witness :
    ∃ s, getUserCivicStats 7 stStats = Except.ok s ∧
      s.totalActivities = 3 ∧
      s.pendingActivities = 1 ∧
      s.totalEndorsements = 7 ∧
      s.civicPoints = statsUser.civicPoints ∧ s.civicRank = statsUser.civicRank :=
  C8_civic_stats 7 stStats statsUser rfl

/-! ### C9: the decision transition under concurrency

`approveActivity` performs `findById`, an in-memory status check, an
unconditional `save()` of the whole document, and then the owner update —
each `await` is an interleaving point.  `ApprovePhase`/`approveStep`
split the call at exactly those points; `runTwo` interleaves two calls on
a shared store according to a schedule of actor choices. -/

/-- The local state of one in-flight `approveActivity` call, between its
`await` points: before `findById`; holding the read snapshot; after
`activity.save()` (still holding the snapshot's owner reference); and
returned. -/
inductive ApprovePhase
  | start
  | readDone (snapshot : CivicActivity)
  | statusSaved (snapshot : CivicActivity) (pts : Int)
  | finished (r : Except CivicError Unit)
deriving Repr

/-- One atomic segment of `approveActivity` (the code between two
`await`s), acting on the shared store. -/
def approveStep (aid vid now : Nat) (env : Option Int) :
    ApprovePhase × St → ApprovePhase × St
  | (ApprovePhase.start, st) =>
    match dbFindActivity st aid with
    | none =>
      (ApprovePhase.finished (Except.error (CivicError.notFound "Activity not found")), st)
    | some a => (ApprovePhase.readDone a, st)
  | (ApprovePhase.readDone a, st) =>
    if a.status ≠ Status.pending then
      (ApprovePhase.finished
        (Except.error (CivicError.invalidState "Activity already processed")), st)
    else
      let pts := pointsOrDefault env 100
      (ApprovePhase.statusSaved a pts,
        dbSaveActivity st
          { a with
              status := Status.approved
              pointsAwarded := pts
              verifiedBy := some vid
              verifiedAt := some now })
  | (ApprovePhase.statusSaved a pts, st) =>
    match dbFindUser st a.user with
    | none => (ApprovePhase.finished (Except.error (CivicError.serverError "TypeError")), st)
    | some u =>
      (ApprovePhase.finished (Except.ok ()),
        dbSaveUser st
          { u with
              civicPoints := u.civicPoints + pts
              civicRank := updateCivicRank (u.civicPoints + pts) })
  | (ApprovePhase.finished r, st) => (ApprovePhase.finished r, st)

/-- Interleave two `approveActivity` calls on a shared store: each
schedule entry says which call runs its next segment (`true` = first). -/
def runTwo (aid vid now : Nat) (env : Option Int) :
    List Bool → ApprovePhase × ApprovePhase × St → ApprovePhase × ApprovePhase × St
  | [], s => s
  | b :: rest, (p1, p2, st) =>
    if b then
      let r := approveStep aid vid now env (p1, st)
      runTwo aid vid now env rest (r.1, p2, r.2)
    else
      let r := approveStep aid vid now env (p2, st)
      runTwo aid vid now env rest (p1, r.1, r.2)

/-- Running one call's segments back-to-back is exactly
`approveActivity`: the phased model refines the controller function. -/
theorem approveStep_sequential (aid vid now : Nat) (env : Option Int) (st : St) :
    approveStep aid vid now env (approveStep aid vid now env
      (approveStep aid vid now env (ApprovePhase.start, st))) =
    (ApprovePhase.finished (approveActivity aid vid now env st).1,
      (approveActivity aid vid now env st).2) := by
  cases hfa : dbFindActivity st aid with
  | none => simp [approveStep, approveActivity, hfa]
  | some a =>
    by_cases hs : a.status = Status.pending
    · cases hu : dbFindUser st a.user with
      | none =>
        simp [approveStep, approveActivity, hfa, hs, dbFindUser_dbSaveActivity, hu]
      | some u =>
        simp [approveStep, approveActivity, hfa, hs, dbFindUser_dbSaveActivity, hu]
    · simp [approveStep, approveActivity, hfa, hs]

/-- C9 counterexample: two interleaved approval calls on the concrete
pending activity (both read before either writes) BOTH return success —
the losing writer does not observe the InvalidStateError — and the owner
is awarded twice (200 points instead of 100); moreover after the first
call's `activity.save()` but before its owner update, a reader of the
store sees status approved together with the pre-award point total 0.
The guard is an in-memory check on a stale snapshot, not a conditional
write. -/
theorem C9_counterexample :
    (runTwo 1 9 5 none [true, false, true, true, false, false]
        (ApprovePhase.start, ApprovePhase.start, stPending)).1 =
      ApprovePhase.finished (Except.ok ()) ∧
    (runTwo 1 9 5 none [true, false, true, true, false, false]
        (ApprovePhase.start, ApprovePhase.start, stPending)).2.1 =
      ApprovePhase.finished (Except.ok ()) ∧
    (dbFindUser (runTwo 1 9 5 none [true, false, true, true, false, false]
        (ApprovePhase.start, ApprovePhase.start, stPending)).2.2 2).map
      User.civicPoints = some 200 ∧
    (dbFindActivity (runTwo 1 9 5 none [true, true]
        (ApprovePhase.start, ApprovePhase.start, stPending)).2.2 1).map
      CivicActivity.status = some Status.approved ∧
    (dbFindUser (runTwo 1 9 5 none [true, true]
        (ApprovePhase.start, ApprovePhase.start, stPending)).2.2 2).map
      User.civicPoints = some 0 :=
  ⟨rfl, rfl, rfl, rfl, rfl⟩

/-- C9 (amended): the pending→approved transition is guarded only by an
in-memory status check on a previously read snapshot, not by a
compare-and-set conditional write; when the two decision attempts do not
interleave, exactly one succeeds and the other observes the
InvalidStateError ("Activity already processed") with the store
untouched, but interleaved attempts can both succeed and double-award,
and a reader between the activity write and the user write observes
status approved with the pre-award point total. -/
theorem C9_sequential_decisions (aid vid vid2 now now2 : Nat)
    (env env2 : Option Int) (st : St) (a : CivicActivity) (owner : User)
    (ha : dbFindActivity st aid = some a) (hs : a.status = Status.pending)
    (hu : dbFindUser st a.user = some owner) :
    ∃ st', approveActivity aid vid now env st = (Except.ok (), st') ∧
      approveActivity aid vid2 now2 env2 st' =
        (Except.error (CivicError.invalidState "Activity already processed"), st') := by
  have hrun := approveActivity_pending aid vid now env st a owner ha hs hu
  refine ⟨_, hrun, ?_⟩
  exact approveActivity_not_pending aid vid2 now2 env2 _ _
    (dbFindActivity_after_save st aid a _ ha rfl) (by simp)

/-- Witness for C9 (amended): a concrete approval followed by a second
attempt that hits the InvalidStateError. -/
theorem C9_sequential_decisions_witness :
    ∃ st', approveActivity 1 9 5 none stPending = (Except.ok (), st') ∧
      approveActivity 1 8 6 none st' =
        (Except.error (CivicError.invalidState "Activity already processed"), st') :=
  C9_sequential_decisions 1 9 8 5 6 none none stPending actP owner0 rfl rfl rfl

end CivicConnect
